import Mathlib

/-!
Shallow embedding of `src/nexsoft_update_tui.py` (nexBox_updater).

The file models the TUI state machine (`UIState`, `TUI.handle_input`,
`TUI.start_job`, the `run` loop guard) and the job-runner worker body.
External collaborators (curses, `detect_serial`, `os.environ`, the wall
clock, and the spawned process) enter as explicit parameters: the key
code read by `getch`, the string returned by `detect_serial`, the
ambient environment, a timestamp string, and the process outcome.
Python `curses` key constants keep their ncurses numeric values.
-/

namespace NexTui

/-- ncurses KEY_DOWN (0o402). -/
def KEY_DOWN : Int := 258

/-- ncurses KEY_UP (0o403). -/
def KEY_UP : Int := 259

/-- ncurses KEY_LEFT (0o404). -/
def KEY_LEFT : Int := 260

/-- ncurses KEY_RIGHT (0o405). -/
def KEY_RIGHT : Int := 261

/-- ncurses KEY_BACKSPACE (0o407). -/
def KEY_BACKSPACE : Int := 263

/-- ncurses KEY_F5 = KEY_F0 + 5 (0o410 + 5). -/
def KEY_F5 : Int := 269

/-- ncurses KEY_ENTER (0o527). -/
def KEY_ENTER : Int := 343

/-- The `self.flags` dict of `UIState.__init__` (fixed key set). -/
structure Flags where
  ENABLE_RS232_TEST : Bool
  ENABLE_RS232_MODEM : Bool
  NO_TIMESHIFT : Bool
  NO_UPDATE : Bool
  CLEAR_LOGS : Bool
  NO_NEXSOFT_BKP : Bool
  REMOVE_STATIC_IP_SERVICE : Bool
  ENABLE_SECONDARY_IP_SERVICE : Bool
  OVERWRITE_IDS : Bool
  NON_INTERACTIVE : Bool
deriving Repr, DecidableEq

/-- Dict read `flags[key]` for the fixed key set (keys used in the
source are always drawn from `toggle_order`, so the default branch is
unreachable there). -/
def Flags.get (f : Flags) (k : String) : Bool :=
  if k = "ENABLE_RS232_TEST" then f.ENABLE_RS232_TEST
  else if k = "ENABLE_RS232_MODEM" then f.ENABLE_RS232_MODEM
  else if k = "NO_TIMESHIFT" then f.NO_TIMESHIFT
  else if k = "NO_UPDATE" then f.NO_UPDATE
  else if k = "CLEAR_LOGS" then f.CLEAR_LOGS
  else if k = "NO_NEXSOFT_BKP" then f.NO_NEXSOFT_BKP
  else if k = "REMOVE_STATIC_IP_SERVICE" then f.REMOVE_STATIC_IP_SERVICE
  else if k = "ENABLE_SECONDARY_IP_SERVICE" then f.ENABLE_SECONDARY_IP_SERVICE
  else if k = "OVERWRITE_IDS" then f.OVERWRITE_IDS
  else if k = "NON_INTERACTIVE" then f.NON_INTERACTIVE
  else false

/-- Dict write `flags[key] = b` for the fixed key set. -/
def Flags.set (f : Flags) (k : String) (b : Bool) : Flags :=
  if k = "ENABLE_RS232_TEST" then { f with ENABLE_RS232_TEST := b }
  else if k = "ENABLE_RS232_MODEM" then { f with ENABLE_RS232_MODEM := b }
  else if k = "NO_TIMESHIFT" then { f with NO_TIMESHIFT := b }
  else if k = "NO_UPDATE" then { f with NO_UPDATE := b }
  else if k = "CLEAR_LOGS" then { f with CLEAR_LOGS := b }
  else if k = "NO_NEXSOFT_BKP" then { f with NO_NEXSOFT_BKP := b }
  else if k = "REMOVE_STATIC_IP_SERVICE" then { f with REMOVE_STATIC_IP_SERVICE := b }
  else if k = "ENABLE_SECONDARY_IP_SERVICE" then { f with ENABLE_SECONDARY_IP_SERVICE := b }
  else if k = "OVERWRITE_IDS" then { f with OVERWRITE_IDS := b }
  else if k = "NON_INTERACTIVE" then { f with NON_INTERACTIVE := b }
  else f

/-- The statement `self.state.flags[key] = not self.state.flags[key]`
(line 338 of the source) as one operation. -/
def Flags.toggle (f : Flags) (k : String) : Flags :=
  Flags.set f k (!(Flags.get f k))

/-- Flag defaults from `UIState.__init__` (lines 130-141). -/
def init_flags : Flags where
  ENABLE_RS232_TEST := true
  ENABLE_RS232_MODEM := false
  NO_TIMESHIFT := false
  NO_UPDATE := false
  CLEAR_LOGS := false
  NO_NEXSOFT_BKP := false
  REMOVE_STATIC_IP_SERVICE := true
  ENABLE_SECONDARY_IP_SERVICE := true
  OVERWRITE_IDS := false
  NON_INTERACTIVE := false

/-- `TUI.fields_order` (lines 184-197): (env key, label) pairs. -/
def fields_order : List (String × String) :=
  [("DOWNLOAD_URL", "Download URL"),
   ("DOWNLOAD_REFERER", "HTTP Referer (optional)"),
   ("SERVICE_NAME", "Service name"),
   ("TARGET_DIR", "Target dir"),
   ("SERIAL_DEV", "Serial device"),
   ("SERIAL_BAUD", "Serial baud"),
   ("SERIAL_NUMBER", "Product Serial Number"),
   ("TIMESHIFT_SCRIPT", "Timeshift script path"),
   ("SERVICE_START_TIMEOUT", "Service start timeout (s)"),
   ("SERVICE_POST_START_WAIT", "Post-start log delay (s)"),
   ("SERVICE_LOG_LOOKBACK", "Log lookback (s w/o restart)"),
   ("WEBMIN_HTTP_TIMEOUT", "Webmin HTTP timeout (s)")]

/-- `TUI.toggle_order` (lines 198-209): (flag key, label) pairs. -/
def toggle_order : List (String × String) :=
  [("ENABLE_RS232_TEST", "RS232 loopback test"),
   ("ENABLE_RS232_MODEM", "RS232 modem-lines test"),
   ("NO_UPDATE", "Skip update (QC only)"),
   ("NO_TIMESHIFT", "Disable Timeshift snapshot"),
   ("CLEAR_LOGS", "Clear journald before restart"),
   ("NO_NEXSOFT_BKP", "Skip /opt/nexSoft backup"),
   ("REMOVE_STATIC_IP_SERVICE", "Remove add-static-ip.service"),
   ("ENABLE_SECONDARY_IP_SERVICE", "Enable secondary-ip.service"),
   ("OVERWRITE_IDS", "Overwrite existing IDs"),
   ("NON_INTERACTIVE", "Non-interactive prompts")]

/-- `total_items = len(self.fields_order) + len(self.toggle_order) + 1`
(line 306). -/
def total_items : Nat := fields_order.length + toggle_order.length + 1

/-- The `subprocess.Popen` handle, reduced to what the TUI observes:
`poll()` returns `none` while the process runs, `some rc` after exit. -/
structure ProcHandle where
  poll : Option Int
deriving Repr, DecidableEq

/-- Python dict read with default empty string: `env.get(key, '')`; the
truthiness test `not env.get(key)` coincides with `dictGet env key = ""`
because an absent key and an empty value are both falsy. -/
def dictGet : List (String × String) → String → String
  | [], _ => ""
  | (k', v) :: rest, k => if k' = k then v else dictGet rest k

/-- Python dict write `env[key] = v`: update in place, else append. -/
def dictSet : List (String × String) → String → String → List (String × String)
  | [], k, v => [(k, v)]
  | (k', v') :: rest, k, v =>
      if k' = k then (k, v) :: rest else (k', v') :: dictSet rest k v

/-- Python `d.update(items)`: fold dict writes left to right. -/
def dictUpdate (d items : List (String × String)) : List (String × String) :=
  items.foldl (fun acc kv => dictSet acc kv.1 kv.2) d

/-- Python list indexing `l[i]` as a fallible read: negative indices
count from the end; out of range is an IndexError (`none`). -/
def pyGet? (l : List α) (i : Int) : Option α :=
  if 0 ≤ i then l.get? i.toNat
  else if 0 ≤ (l.length : Int) + i then l.get? ((l.length : Int) + i).toNat
  else none

/-- Python `list.index(x)` restricted to success/failure: `none` models
the `ValueError` that the source catches. -/
def list_index? (x : String) : List String → Option Nat
  | [] => none
  | y :: ys => if y = x then some 0 else (list_index? x ys).map (· + 1)

/-- Mutable state of `UIState` (lines 99-151), one record. `env` keeps
dict insertion order; `proc` is `None` until a job has been spawned. -/
structure UIState where
  theme_dark : Bool
  mode : String
  message : String
  env : List (String × String)
  flags : Flags
  field_index : Int
  edit_mode : Bool
  input_buffer : String
  logs : List String
  proc : Option ProcHandle
deriving Repr, DecidableEq

/-- `UIState.set_mode` (lines 153-156): always writes `mode`, writes
`message` only when `msg` is truthy (non-empty). -/
def UIState.set_mode (st : UIState) (mode : String) (msg : String) : UIState :=
  { st with mode := mode, message := if msg = "" then st.message else msg }

/-- Python `l[-n:]`: the last `n` elements (the whole list when shorter). -/
def takeLast (n : Nat) (l : List α) : List α :=
  l.drop (l.length - n)

/-- `UIState.log` (lines 148-151): append a timestamped line, keep the
last 500 entries (`self.logs = self.logs[-500:]`). The wall-clock
timestamp is a parameter. -/
def UIState.log (st : UIState) (ts line : String) : UIState :=
  { st with logs := takeLast 500 (st.logs ++ ["[" ++ ts ++ "] " ++ line]) }

/-- The action value `handle_input` returns to the `run` loop. -/
inductive Action where
  | start : Action
  | quit : Action
deriving Repr, DecidableEq

/-- `self.state.proc and self.state.proc.poll() is None`
(`TUI._confirm_quit`, line 375): a handle exists and still runs. -/
def procLive (st : UIState) : Bool :=
  match st.proc with
  | some p => p.poll.isNone
  | none => false

/-- `state.proc is None or state.proc.poll() is not None` (the `run`
loop guard, line 443). -/
def can_start (st : UIState) : Bool :=
  match st.proc with
  | none => true
  | some p => p.poll.isSome

/-- The missing-serial redirect block (lines 317-325 and 343-350 of the
source, which duplicate it verbatim): set the warning message, then
focus the SERIAL_NUMBER field, pre-fill the buffer with the detected
value and open edit mode — skipped when `list.index` would raise
`ValueError` (the caught `except` branch). -/
def serial_redirect (st : UIState) (detected : String) : UIState × Option Action :=
  let st' := { st with message := "Product Serial Number is required." }
  match list_index? "SERIAL_NUMBER" (fields_order.map Prod.fst) with
  | some i =>
      ({ st' with field_index := (i : Int), input_buffer := detected,
                  edit_mode := true }, none)
  | none => (st', none)

/-- A start request (start key, or Enter on the Start action): the
mandatory-field check of lines 316-327 / 342-352. -/
def start_request (st : UIState) (detected : String) : UIState × Option Action :=
  if dictGet st.env "SERIAL_NUMBER" = "" then serial_redirect st detected
  else (st, some .start)

/-- The quit path (lines 310-313) inlining `_confirm_quit`
(lines 374-382): with a live job only `y`/`Y` confirms. -/
def quit_request (st : UIState) (confirm_ch : Int) : UIState × Option Action :=
  if procLive st then
    if confirm_ch = 121 ∨ confirm_ch = 89 then (st, some .quit)
    else (st, none)
  else (st, some .quit)

/-- The left/right branch (lines 334-339): toggle the flag when the
selection is past the field list (`toggle_order[i]` may raise). -/
def toggle_request (st : UIState) : Except String (UIState × Option Action) :=
  if (fields_order.length : Int) ≤ st.field_index then
    match pyGet? toggle_order (st.field_index - (fields_order.length : Int)) with
    | some kv =>
        .ok ({ st with flags := st.flags.set kv.1 (!(st.flags.get kv.1)) }, none)
    | none => .error "IndexError"
  else .ok (st, none)

/-- The Enter branch outside edit mode (lines 340-356): Start action or
begin editing the selected field (`fields_order[...]` may raise). -/
def enter_request (st : UIState) (detected : String) :
    Except String (UIState × Option Action) :=
  if st.field_index = ((fields_order.length + toggle_order.length : Nat) : Int) then
    .ok (start_request st detected)
  else
    match pyGet? fields_order st.field_index with
    | some kv =>
        .ok ({ st with input_buffer := dictGet st.env kv.1, edit_mode := true }, none)
    | none => .error "IndexError"

/-- The edit-mode block (lines 357-371) together with the final
`return None` fallthrough. -/
def edit_key (st : UIState) (ch : Int) : Except String (UIState × Option Action) :=
  if ch = 27 then .ok ({ st with edit_mode := false }, none)
  else if ch = 10 ∨ ch = 13 then
    match pyGet? fields_order st.field_index with
    | some kv =>
        .ok ({ st with env := dictSet st.env kv.1 st.input_buffer,
                       edit_mode := false }, none)
    | none => .error "IndexError"
  else if ch = KEY_BACKSPACE ∨ ch = 127 ∨ ch = 8 then
    .ok ({ st with input_buffer := String.mk st.input_buffer.data.dropLast }, none)
  else if 32 ≤ ch ∧ ch ≤ 126 then
    .ok ({ st with input_buffer := st.input_buffer.push (Char.ofNat ch.toNat) }, none)
  else .ok (st, none)

/-- `TUI.handle_input` (lines 302-372). `ch` is the `getch` result;
`detected` is what `detect_serial()` would return at this moment;
`confirm_ch` is the key `_confirm_quit` reads when a job is live.
Python list-index errors surface as `Except.error "IndexError"`. -/
def handle_input (st : UIState) (ch : Int) (detected : String) (confirm_ch : Int) :
    Except String (UIState × Option Action) :=
  if ch = -1 then .ok (st, none)
  else if (ch = 116 ∨ ch = 84) ∧ st.edit_mode = false then
    .ok ({ st with theme_dark := !st.theme_dark }, none)
  else if (ch = 113 ∨ ch = 27) ∧ st.edit_mode = false then
    .ok (quit_request st confirm_ch)
  else if (ch = KEY_F5 ∨ ch = 115) ∧ st.edit_mode = false then
    .ok (start_request st detected)
  else if (ch = KEY_UP ∨ ch = 107) ∧ st.edit_mode = false then
    .ok ({ st with field_index := (st.field_index - 1) % (total_items : Int) }, none)
  else if (ch = KEY_DOWN ∨ ch = 106) ∧ st.edit_mode = false then
    .ok ({ st with field_index := (st.field_index + 1) % (total_items : Int) }, none)
  else if (ch = KEY_LEFT ∨ ch = KEY_RIGHT) ∧ st.edit_mode = false then
    toggle_request st
  else if (ch = KEY_ENTER ∨ ch = 10 ∨ ch = 13) ∧ st.edit_mode = false then
    enter_request st detected
  else if st.edit_mode then edit_key st ch
  else .ok (st, none)

/-- The flag-to-environment channel of `start_job` (lines 393-394):
`env[k] = '1' if v else '0'`, in the insertion order of the flags dict. -/
def flags_env (f : Flags) : List (String × String) :=
  [("ENABLE_RS232_TEST", if f.ENABLE_RS232_TEST then "1" else "0"),
   ("ENABLE_RS232_MODEM", if f.ENABLE_RS232_MODEM then "1" else "0"),
   ("NO_TIMESHIFT", if f.NO_TIMESHIFT then "1" else "0"),
   ("NO_UPDATE", if f.NO_UPDATE then "1" else "0"),
   ("CLEAR_LOGS", if f.CLEAR_LOGS then "1" else "0"),
   ("NO_NEXSOFT_BKP", if f.NO_NEXSOFT_BKP then "1" else "0"),
   ("REMOVE_STATIC_IP_SERVICE", if f.REMOVE_STATIC_IP_SERVICE then "1" else "0"),
   ("ENABLE_SECONDARY_IP_SERVICE", if f.ENABLE_SECONDARY_IP_SERVICE then "1" else "0"),
   ("OVERWRITE_IDS", if f.OVERWRITE_IDS then "1" else "0"),
   ("NON_INTERACTIVE", if f.NON_INTERACTIVE then "1" else "0")]

/-- The positional argument list `args` built by `start_job`
(lines 395-404), starting with the script path. -/
def build_args (script_path : String) (f : Flags) : List String :=
  script_path ::
  ([if f.ENABLE_RS232_TEST then "--enable-rs232-test" else "--disable-rs232-test"]
  ++ (if f.NO_UPDATE then ["--no-update"] else [])
  ++ (if f.NO_TIMESHIFT then ["--no-timeshift"] else [])
  ++ (if f.CLEAR_LOGS then ["--clear-logs"] else [])
  ++ (if f.NO_NEXSOFT_BKP then ["--no-nexSoft-bkp"] else [])
  ++ [if f.REMOVE_STATIC_IP_SERVICE then "--remove-static-ip-service"
      else "--keep-static-ip-service"]
  ++ [if f.ENABLE_SECONDARY_IP_SERVICE then "--enable-secondary-ip-service"
      else "--disable-secondary-ip-service"]
  ++ (if f.OVERWRITE_IDS then ["--overwrite-ids"] else [])
  ++ (if f.NON_INTERACTIVE then ["--non-interactive"] else []))

/-- What `subprocess.Popen` receives: the argument vector and the
merged environment. -/
structure Spawn where
  args : List String
  env : List (String × String)
deriving Repr, DecidableEq

/-- `TUI.start_job` (lines 384-407): the synchronous part, up to handing
`args`/`env` to the worker thread. Returns the mutated state and the
spawn request (`none` when the mandatory-field guard refuses).
`os_environ` stands for `os.environ.copy()`; `ts` is the wall clock. -/
def start_job (st : UIState) (script_path ts : String)
    (os_environ : List (String × String)) : UIState × Option Spawn :=
  if dictGet st.env "SERIAL_NUMBER" = "" then
    (((st.set_mode "neutral" "Product Serial Number is required.").log ts
        "Refusing to start: missing SERIAL_NUMBER"), none)
  else
    let env := dictUpdate (dictUpdate os_environ st.env) (flags_env st.flags)
    let args := build_args script_path st.flags
    (((st.set_mode "work" "Running…").log ts "Starting updater…"),
     some { args := args, env := env })

/-- Python `line.rstrip(chr(10))`: drop every trailing newline. -/
def rstrip_nl (s : String) : String :=
  String.mk (s.data.reverse.dropWhile (fun c => c = '\n')).reverse

/-- The streaming loop of `_run` (lines 417-418): each stdout line is
newline-stripped and appended to the log with a timestamp. One shared
timestamp stands for the per-line clock reads. -/
def drain_lines (st : UIState) (ts : String) (lines : List String) : UIState :=
  lines.foldl (fun s l => s.log ts (rstrip_nl l)) st

/-- How the spawned process's life ends, as observed by `_run`:
a normal exit code, a `FileNotFoundError` from `Popen`, or any other
exception (carrying its rendered message). -/
inductive JobOutcome where
  | exited : Int → JobOutcome
  | fileNotFound : JobOutcome
  | exc : String → JobOutcome
deriving Repr, DecidableEq

/-- The terminal branch of `_run` for a normal exit (lines 419-425). -/
def finish_exit (st : UIState) (ts : String) (rc : Int) : UIState :=
  if rc = 0 then
    (st.set_mode "ok" "Completed successfully").log ts "Job finished: OK"
  else
    (st.set_mode "neutral" ("Finished with errors (rc=" ++ toString rc ++ ")")).log
      ts ("Job finished: ERR rc=" ++ toString rc)

/-- The `except FileNotFoundError` branch of `_run` (lines 426-428). -/
def finish_not_found (st : UIState) (ts script_path : String) : UIState :=
  (st.set_mode "neutral" "Shell script not found. Check SCRIPT_PATH.").log ts
    ("ERROR: " ++ script_path ++ " not found")

/-- The `except Exception` branch of `_run` (lines 429-431). -/
def finish_exc (st : UIState) (ts msg : String) : UIState :=
  (st.set_mode "neutral" ("Exception: " ++ msg)).log ts ("Exception: " ++ msg)

/-- The `_run` worker body (lines 409-431) after `Popen` has been
attempted: on `fileNotFound` no output was produced; otherwise the
stream is drained and the terminal branch runs. -/
def run_worker (st : UIState) (ts script_path : String) (lines : List String)
    (o : JobOutcome) : UIState :=
  match o with
  | .exited rc => finish_exit (drain_lines st ts lines) ts rc
  | .fileNotFound => finish_not_found st ts script_path
  | .exc m => finish_exc (drain_lines st ts lines) ts m

/-- One iteration of the `run` loop (lines 438-444): handle one key,
then start a job only when the action is `start` and the liveness guard
`state.proc is None or state.proc.poll() is not None` passes. The
returned Bool is `true` when the loop breaks (quit). -/
def run_step (st : UIState) (ch : Int) (detected : String) (confirm_ch : Int)
    (script_path ts : String) (os_environ : List (String × String)) :
    Except String (UIState × Option Spawn × Bool) :=
  match handle_input st ch detected confirm_ch with
  | .error e => .error e
  | .ok (st', act) =>
    match act with
    | some .quit => .ok (st', none, true)
    | some .start =>
        if can_start st' then
          let r := start_job st' script_path ts os_environ
          .ok (r.1, r.2, false)
        else .ok (st', none, false)
    | none => .ok (st', none, false)

/-- Iterated `handle_input` over a key sequence (used for navigation
sequences; any IndexError aborts). -/
def nav_apply (st : UIState) (ks : List Int) (detected : String) (confirm_ch : Int) :
    Except String UIState :=
  match ks with
  | [] => .ok st
  | k :: rest =>
    match handle_input st k detected confirm_ch with
    | .ok (st', _) => nav_apply st' rest detected confirm_ch
    | .error e => .error e

/-- Iterated `UIState.log` over (timestamp, line) pairs. -/
def log_all (st : UIState) (entries : List (String × String)) : UIState :=
  entries.foldl (fun s e => s.log e.1 e.2) st

/-! ## Helper lemmas -/

lemma takeLast_length_le (n : Nat) (l : List α) : (takeLast n l).length ≤ n := by
  simp [takeLast]
  omega

lemma log_length_le (st : UIState) (ts line : String) :
    (st.log ts line).logs.length ≤ 500 := by
  simp only [UIState.log]
  exact takeLast_length_le 500 _

lemma log_all_length_le (st : UIState) (entries : List (String × String))
    (h : st.logs.length ≤ 500) : (log_all st entries).logs.length ≤ 500 := by
  induction entries generalizing st with
  | nil => exact h
  | cons e rest ih =>
      have h1 := log_length_le st e.1 e.2
      have h2 := ih (st.log e.1 e.2) h1
      simpa only [log_all, List.foldl_cons] using h2

lemma log_fifo (st : UIState) (ts line : String) (h : st.logs.length = 500) :
    (st.log ts line).logs = st.logs.drop 1 ++ ["[" ++ ts ++ "] " ++ line] := by
  simp only [UIState.log, takeLast, List.length_append, h, List.length_cons,
    List.length_nil]
  rw [List.drop_append_of_le_length (by omega)]

lemma str_append_ne_empty (s t : String) (h : s ≠ "") : s ++ t ≠ "" := by
  intro he
  apply h
  have hd : s.data ++ t.data = [] := by
    have := congrArg String.data he
    simpa using this
  cases s with
  | mk d =>
      cases t with
      | mk d' =>
          have : d = [] := (List.append_eq_nil.mp hd).1
          simp [this]

/-! ## Claim theorems -/

/-- C5: for every sequence of log appends the log buffer stays at or
under 500 entries, and an append to a buffer holding exactly 500
entries evicts exactly the oldest line, keeping the rest in order
(FIFO eviction), as implemented by `UIState.log`
(`self.logs = self.logs[-500:]`). -/
theorem log_buffer_bound (st : UIState) (entries : List (String × String))
    (ts line : String) (h : st.logs.length ≤ 500) :
    (log_all st entries).logs.length ≤ 500 ∧
    (st.logs.length = 500 →
      (st.log ts line).logs = st.logs.drop 1 ++ ["[" ++ ts ++ "] " ++ line]) :=
  ⟨log_all_length_le st entries h, fun h500 => log_fifo st ts line h500⟩

/-- A plain reachable-looking state used as a base for concrete
witnesses: fresh UI, serial number present, no job running. -/
def base_state : UIState where
  theme_dark := true
  mode := "neutral"
  message := "Ready"
  env := [("SERIAL_NUMBER", "SN1")]
  flags := init_flags
  field_index := 0
  edit_mode := false
  input_buffer := ""
  logs := []
  proc := none

/-- A state whose log buffer is exactly full (for the C5 witness). -/
def log_full_state : UIState :=
  { base_state with logs := List.replicate 500 "old" }

/-- Witness for C5 at a concretely full buffer. -/
theorem log_buffer_bound_witness :
    (log_all log_full_state [("T", "a")]).logs.length ≤ 500 ∧
    (log_full_state.logs.length = 500 →
      (log_full_state.log "T" "b").logs =
        log_full_state.logs.drop 1 ++ ["[" ++ "T" ++ "] " ++ "b"]) :=
  log_buffer_bound log_full_state [("T", "a")] "T" "b"
    (by rw [show log_full_state.logs = List.replicate 500 "old" from rfl,
          List.length_replicate])

/-- C4: the worker records exactly one terminal outcome after the
stream ends: exit 0 gives mode `ok` and status `Completed successfully`;
a nonzero exit gives mode `neutral` with the code inside the status; a
missing binary gives mode `neutral` with the path-problem status; any
other fault gives mode `neutral` with a short fault description; each
outcome appends exactly one summary log line. -/
theorem terminal_outcomes (st : UIState) (ts script_path m : String)
    (lines : List String) (rc : Int) (hrc : rc ≠ 0) :
    ((run_worker st ts script_path lines (.exited 0)).mode = "ok" ∧
     (run_worker st ts script_path lines (.exited 0)).message = "Completed successfully" ∧
     (run_worker st ts script_path lines (.exited 0)).logs =
       takeLast 500 ((drain_lines st ts lines).logs ++
         ["[" ++ ts ++ "] " ++ "Job finished: OK"])) ∧
    ((run_worker st ts script_path lines (.exited rc)).mode = "neutral" ∧
     (∃ a b, (run_worker st ts script_path lines (.exited rc)).message =
        a ++ toString rc ++ b) ∧
     (run_worker st ts script_path lines (.exited rc)).logs =
       takeLast 500 ((drain_lines st ts lines).logs ++
         ["[" ++ ts ++ "] " ++ ("Job finished: ERR rc=" ++ toString rc)])) ∧
    ((run_worker st ts script_path lines .fileNotFound).mode = "neutral" ∧
     (run_worker st ts script_path lines .fileNotFound).message =
       "Shell script not found. Check SCRIPT_PATH." ∧
     (run_worker st ts script_path lines .fileNotFound).logs =
       takeLast 500 (st.logs ++
         ["[" ++ ts ++ "] " ++ ("ERROR: " ++ script_path ++ " not found")])) ∧
    ((run_worker st ts script_path lines (.exc m)).mode = "neutral" ∧
     (run_worker st ts script_path lines (.exc m)).message = "Exception: " ++ m ∧
     (run_worker st ts script_path lines (.exc m)).logs =
       takeLast 500 ((drain_lines st ts lines).logs ++
         ["[" ++ ts ++ "] " ++ ("Exception: " ++ m)])) := by
  have h1 : ("Finished with errors (rc=" ++ toString rc ++ ")" : String) ≠ "" :=
    str_append_ne_empty _ _ (str_append_ne_empty _ _ (by decide))
  have h2 : ("Exception: " ++ m : String) ≠ "" :=
    str_append_ne_empty _ _ (by decide)
  refine ⟨⟨?_, ?_, ?_⟩, ⟨?_, ⟨"Finished with errors (rc=", ")", ?_⟩, ?_⟩,
    ⟨?_, ?_, ?_⟩, ⟨?_, ?_, ?_⟩⟩ <;>
    simp [run_worker, finish_exit, finish_not_found, finish_exc,
      UIState.set_mode, UIState.log, hrc, h1, h2]

/-- Witness for C4 at exit code 2 (the spec's literal scenario). -/
theorem terminal_outcomes_witness :
    (run_worker base_state "T" "S" ["A"] (.exited 2)).mode = "neutral" ∧
    (∃ a b, (run_worker base_state "T" "S" ["A"] (.exited 2)).message =
       a ++ toString (2 : Int) ++ b) :=
  ⟨(terminal_outcomes base_state "T" "S" "boom" ["A"] 2 (by decide)).2.1.1,
   (terminal_outcomes base_state "T" "S" "boom" ["A"] 2 (by decide)).2.1.2.1⟩

/-- The flag keys the controller can toggle (first components of
`toggle_order`). -/
def flag_keys : List String := toggle_order.map Prod.fst

set_option maxHeartbeats 1600000 in
/-- Toggling two flag keys commutes, in either order. -/
lemma Flags.toggle_comm (f : Flags) (k1 k2 : String)
    (h1 : k1 ∈ flag_keys) (h2 : k2 ∈ flag_keys) :
    (f.toggle k1).toggle k2 = (f.toggle k2).toggle k1 := by
  simp only [flag_keys, toggle_order, List.map_cons, List.map_nil, List.mem_cons,
    List.not_mem_nil, or_false] at h1 h2
  rcases h1 with rfl|rfl|rfl|rfl|rfl|rfl|rfl|rfl|rfl|rfl <;>
    rcases h2 with rfl|rfl|rfl|rfl|rfl|rfl|rfl|rfl|rfl|rfl <;> rfl

/-- Folding toggles over a permuted key sequence gives the same flags:
the final flag assignment ignores toggle order. -/
lemma foldl_toggle_perm (f : Flags) {ks ks' : List String} (h : ks.Perm ks')
    (hk : ∀ k ∈ ks, k ∈ flag_keys) :
    List.foldl Flags.toggle f ks = List.foldl Flags.toggle f ks' := by
  revert hk
  induction h generalizing f with
  | nil => intro _; rfl
  | cons x _ ih =>
      intro hk
      simp only [List.foldl_cons]
      exact ih _ (fun k hm => hk k (List.mem_cons_of_mem _ hm))
  | swap x y l =>
      intro hk
      have hx : x ∈ flag_keys := hk x (by simp)
      have hy : y ∈ flag_keys := hk y (by simp)
      simp only [List.foldl_cons]
      rw [Flags.toggle_comm f y x hy hx]
  | trans p1 _ ih1 ih2 =>
      intro hk
      exact (ih1 f hk).trans (ih2 f (fun k hm => hk k (p1.symm.subset hm)))

/-- The flag assignment of the C2 scenario: RS232 loopback and skip
update on, every other flag off. -/
def scenario_flags : Flags where
  ENABLE_RS232_TEST := true
  ENABLE_RS232_MODEM := false
  NO_TIMESHIFT := false
  NO_UPDATE := true
  CLEAR_LOGS := false
  NO_NEXSOFT_BKP := false
  REMOVE_STATIC_IP_SERVICE := false
  ENABLE_SECONDARY_IP_SERVICE := false
  OVERWRITE_IDS := false
  NON_INTERACTIVE := false

/-- The fixed master ordering of every token `start_job` can emit
(each emitted list selects from this sequence left to right). -/
def master_tokens : List String :=
  ["--enable-rs232-test", "--disable-rs232-test",
   "--no-update", "--no-timeshift", "--clear-logs", "--no-nexSoft-bkp",
   "--remove-static-ip-service", "--keep-static-ip-service",
   "--enable-secondary-ip-service", "--disable-secondary-ip-service",
   "--overwrite-ids", "--non-interactive"]

lemma build_args_tail_sublist (p : String) (f : Flags) :
    (build_args p f).tail.Sublist master_tokens := by
  simp only [build_args, List.tail_cons]
  obtain ⟨a, b, c, d, e, g, h, i, j, k⟩ := f
  cases a <;> cases b <;> cases c <;> cases d <;> cases e <;> cases g <;>
    cases h <;> cases i <;> cases j <;> cases k <;> decide

/-- C2: with RS232 loopback and skip-update on and every other flag
off, `start_job` emits exactly `[--enable-rs232-test, --no-update,
--keep-static-ip-service, --disable-secondary-ip-service]` after the
script path; for every flag assignment the emitted tokens follow the
one fixed master order, and the assignment reached by a toggle sequence
is independent of the order of the toggles. -/
theorem args_fixed_order (st : UIState) (p ts : String)
    (os_environ : List (String × String)) (f : Flags) (ks ks' : List String)
    (hserial : dictGet st.env "SERIAL_NUMBER" ≠ "")
    (hflags : st.flags = scenario_flags)
    (hperm : ks.Perm ks') (hk : ∀ k ∈ ks, k ∈ flag_keys) :
    ((start_job st p ts os_environ).2.map Spawn.args) =
      some (p :: ["--enable-rs232-test", "--no-update",
        "--keep-static-ip-service", "--disable-secondary-ip-service"]) ∧
    (build_args p f).tail.Sublist master_tokens ∧
    build_args p (List.foldl Flags.toggle f ks) =
      build_args p (List.foldl Flags.toggle f ks') := by
  refine ⟨?_, build_args_tail_sublist p f,
    by rw [foldl_toggle_perm f hperm hk]⟩
  unfold start_job
  rw [if_neg hserial, hflags]
  rfl

/-- The C2 scenario state: serial present, scenario flag assignment. -/
def c2_state : UIState := { base_state with flags := scenario_flags }

/-- Witness for C2 at a concrete state and a concrete transposed toggle
sequence. -/
theorem args_fixed_order_witness :
    ((start_job c2_state "S" "T" []).2.map Spawn.args) =
      some ("S" :: ["--enable-rs232-test", "--no-update",
        "--keep-static-ip-service", "--disable-secondary-ip-service"]) ∧
    (build_args "S" scenario_flags).tail.Sublist master_tokens ∧
    build_args "S" (List.foldl Flags.toggle scenario_flags ["NO_UPDATE", "CLEAR_LOGS"]) =
      build_args "S" (List.foldl Flags.toggle scenario_flags ["CLEAR_LOGS", "NO_UPDATE"]) :=
  args_fixed_order c2_state "S" "T" [] scenario_flags
    ["NO_UPDATE", "CLEAR_LOGS"] ["CLEAR_LOGS", "NO_UPDATE"]
    (by decide) rfl (List.Perm.swap "CLEAR_LOGS" "NO_UPDATE" []) (by decide)

/-- C1: with `SERIAL_NUMBER` empty, a start request (start key, or
Enter on the Start action) never spawns a process: the loop step
returns no spawn, sets the warning message, focuses the SERIAL_NUMBER
field (index 6), pre-fills the input buffer with the freshly detected
value, and enters Editing mode. -/
theorem serial_guard_blocks_start (st : UIState) (ch : Int) (detected : String)
    (confirm_ch : Int) (p ts : String) (os_environ : List (String × String))
    (hedit : st.edit_mode = false)
    (hserial : dictGet st.env "SERIAL_NUMBER" = "")
    (hch : ch = KEY_F5 ∨ ch = 115 ∨
      ((ch = KEY_ENTER ∨ ch = 10 ∨ ch = 13) ∧
        st.field_index = ((fields_order.length + toggle_order.length : Nat) : Int))) :
    run_step st ch detected confirm_ch p ts os_environ =
      .ok ({ st with
               message := "Product Serial Number is required.",
               field_index := 6,
               input_buffer := detected,
               edit_mode := true }, none, false) ∧
    (fields_order.map Prod.fst).get? 6 = some "SERIAL_NUMBER" := by
  refine ⟨?_, by decide⟩
  have h1 : handle_input st ch detected confirm_ch =
      .ok ({ st with
               message := "Product Serial Number is required.",
               field_index := 6,
               input_buffer := detected,
               edit_mode := true }, none) := by
    rcases hch with rfl | rfl | ⟨hch, hidx⟩
    · simp [handle_input, start_request, serial_redirect, enter_request, hedit,
        hserial, KEY_F5, KEY_ENTER, KEY_UP, KEY_DOWN, KEY_LEFT, KEY_RIGHT,
        KEY_BACKSPACE, list_index?, fields_order, toggle_order, total_items]
    · simp [handle_input, start_request, serial_redirect, enter_request, hedit,
        hserial, KEY_F5, KEY_ENTER, KEY_UP, KEY_DOWN, KEY_LEFT, KEY_RIGHT,
        KEY_BACKSPACE, list_index?, fields_order, toggle_order, total_items]
    · rcases hch with rfl | rfl | rfl <;>
        simp [handle_input, start_request, serial_redirect, enter_request, hedit,
          hserial, hidx, KEY_F5, KEY_ENTER, KEY_UP, KEY_DOWN, KEY_LEFT,
          KEY_RIGHT, KEY_BACKSPACE, list_index?, fields_order, toggle_order,
          total_items]
  unfold run_step
  rw [h1]

lemma serial_redirect_proc (st : UIState) (d : String) :
    (serial_redirect st d).1.proc = st.proc := by
  unfold serial_redirect
  split <;> rfl

lemma start_request_proc (st : UIState) (d : String) :
    (start_request st d).1.proc = st.proc := by
  unfold start_request
  split
  · exact serial_redirect_proc st d
  · rfl

lemma quit_request_proc (st : UIState) (c : Int) :
    (quit_request st c).1.proc = st.proc := by
  unfold quit_request
  split <;> [skip; rfl]
  split <;> rfl

lemma toggle_request_proc (st st' : UIState) (a : Option Action)
    (h : toggle_request st = .ok (st', a)) : st'.proc = st.proc := by
  unfold toggle_request at h
  split at h
  · split at h
    · injection h with h1; injection h1 with hA hB; subst hA; rfl
    · simp at h
  · injection h with h1; injection h1 with hA hB; subst hA; rfl

lemma enter_request_proc (st st' : UIState) (d : String) (a : Option Action)
    (h : enter_request st d = .ok (st', a)) : st'.proc = st.proc := by
  unfold enter_request at h
  split at h
  · injection h with h1
    have h2 := congrArg Prod.fst h1
    simp at h2
    rw [← h2]
    exact start_request_proc st d
  · split at h
    · injection h with h1; injection h1 with hA hB; subst hA; rfl
    · simp at h

lemma edit_key_proc (st st' : UIState) (ch : Int) (a : Option Action)
    (h : edit_key st ch = .ok (st', a)) : st'.proc = st.proc := by
  unfold edit_key at h
  split at h
  · injection h with h1; injection h1 with hA hB; subst hA; rfl
  · split at h
    · split at h
      · injection h with h1; injection h1 with hA hB; subst hA; rfl
      · simp at h
    · split at h
      · injection h with h1; injection h1 with hA hB; subst hA; rfl
      · split at h
        · injection h with h1; injection h1 with hA hB; subst hA; rfl
        · injection h with h1; injection h1 with hA hB; subst hA; rfl

/-- `handle_input` never writes the job handle: only the worker thread
assigns `self.state.proc`. -/
lemma handle_input_proc_eq (st st' : UIState) (ch : Int) (d : String) (c : Int)
    (a : Option Action) (h : handle_input st ch d c = .ok (st', a)) :
    st'.proc = st.proc := by
  unfold handle_input at h
  split at h
  · injection h with h1; injection h1 with hA hB; subst hA; rfl
  · split at h
    · injection h with h1; injection h1 with hA hB; subst hA; rfl
    · split at h
      · injection h with h1
        have h2 := congrArg Prod.fst h1
        simp at h2
        rw [← h2]
        exact quit_request_proc st c
      · split at h
        · injection h with h1
          have h2 := congrArg Prod.fst h1
          simp at h2
          rw [← h2]
          exact start_request_proc st d
        · split at h
          · injection h with h1; injection h1 with hA hB; subst hA; rfl
          · split at h
            · injection h with h1; injection h1 with hA hB; subst hA; rfl
            · split at h
              · exact toggle_request_proc st st' a h
              · split at h
                · exact enter_request_proc st st' d a h
                · split at h
                  · exact edit_key_proc st st' ch a h
                  · injection h with h1; injection h1 with hA hB; subst hA; rfl

lemma can_start_eq_of_proc (st1 st2 : UIState) (h : st1.proc = st2.proc) :
    can_start st1 = can_start st2 := by
  unfold can_start
  rw [h]

lemma procLive_not_can_start (st : UIState) (h : procLive st = true) :
    can_start st = false := by
  unfold procLive at h
  unfold can_start
  cases hp : st.proc with
  | none => rw [hp] at h; simp at h
  | some pr =>
      rw [hp] at h
      simp at h
      simp [h]

/-- C3: the loop never starts a second job while one is live — if the
handle is present and `poll()` reports running, a step yields no spawn
and leaves the handle unchanged; conversely a spawn can only happen
when the liveness guard `can_start` held. -/
theorem no_duplicate_start (st st' : UIState) (ch : Int) (detected : String)
    (confirm_ch : Int) (p ts : String) (os_environ : List (String × String))
    (spOpt : Option Spawn) (q : Bool)
    (hrun : run_step st ch detected confirm_ch p ts os_environ = .ok (st', spOpt, q)) :
    (procLive st = true → spOpt = none ∧ st'.proc = st.proc) ∧
    (spOpt.isSome → can_start st = true) := by
  unfold run_step at hrun
  rcases hh : handle_input st ch detected confirm_ch with e | ⟨st1, act⟩ <;>
    rw [hh] at hrun
  · exact absurd hrun (by simp)
  · have hproc : st1.proc = st.proc := handle_input_proc_eq _ _ _ _ _ _ hh
    rcases act with _ | a
    · simp only [Except.ok.injEq, Prod.mk.injEq] at hrun
      obtain ⟨h1, h2, h3⟩ := hrun
      subst h1
      exact ⟨fun _ => ⟨h2.symm, hproc⟩, fun hs => by rw [← h2] at hs; simp at hs⟩
    · rcases a
      · -- start action: guarded by can_start
        simp only at hrun
        by_cases hcs : can_start st1 = true
        · rw [if_pos hcs] at hrun
          simp only [Except.ok.injEq, Prod.mk.injEq] at hrun
          obtain ⟨h1, h2, h3⟩ := hrun
          have hceq : can_start st1 = can_start st := can_start_eq_of_proc st1 st hproc
          constructor
          · intro hlive
            have hfalse := procLive_not_can_start st hlive
            rw [hceq, hfalse] at hcs
            exact absurd hcs (by simp)
          · intro _
            rw [← hceq]
            exact hcs
        · rw [if_neg hcs] at hrun
          simp only [Except.ok.injEq, Prod.mk.injEq] at hrun
          obtain ⟨h1, h2, h3⟩ := hrun
          subst h1
          exact ⟨fun _ => ⟨h2.symm, hproc⟩, fun hs => by rw [← h2] at hs; simp at hs⟩
      · -- quit action
        simp only [Except.ok.injEq, Prod.mk.injEq] at hrun
        obtain ⟨h1, h2, h3⟩ := hrun
        subst h1
        exact ⟨fun _ => ⟨h2.symm, hproc⟩, fun hs => by rw [← h2] at hs; simp at hs⟩

/-- The C3 witness state: a job handle present and still running. -/
def c3_state : UIState := { base_state with proc := some { poll := none } }

/-- Witness for C3: pressing the start key while a job is live. -/
theorem no_duplicate_start_witness :
    (procLive c3_state = true →
      (none : Option Spawn) = none ∧ c3_state.proc = c3_state.proc) ∧
    ((none : Option Spawn).isSome → can_start c3_state = true) :=
  no_duplicate_start c3_state c3_state 115 "" 0 "S" "T" [] none false rfl

/-- The C1 witness state: fresh UI with an empty environment, hence an
empty `SERIAL_NUMBER`. -/
def c1_state : UIState := { base_state with env := [] }

/-- Witness for C1: pressing `s` with the serial empty. -/
theorem serial_guard_blocks_start_witness :
    run_step c1_state 115 "DET" 0 "S" "T" [] =
      .ok ({ c1_state with
               message := "Product Serial Number is required.",
               field_index := 6,
               input_buffer := "DET",
               edit_mode := true }, none, false) ∧
    (fields_order.map Prod.fst).get? 6 = some "SERIAL_NUMBER" :=
  serial_guard_blocks_start c1_state 115 "DET" 0 "S" "T" [] rfl rfl
    (Or.inr (Or.inl rfl))

lemma dictGet_dictSet_self (d : List (String × String)) (k v : String) :
    dictGet (dictSet d k v) k = v := by
  induction d with
  | nil => simp [dictSet, dictGet]
  | cons kv rest ih =>
      obtain ⟨k', v'⟩ := kv
      by_cases hk : k' = k
      · simp [dictSet, hk, dictGet]
      · simp [dictSet, hk, dictGet, ih]

lemma dictGet_dictSet_ne (d : List (String × String)) (k v k' : String)
    (h : k' ≠ k) : dictGet (dictSet d k v) k' = dictGet d k' := by
  induction d with
  | nil => simp [dictSet, dictGet, Ne.symm h]
  | cons kv rest ih =>
      obtain ⟨k2, v2⟩ := kv
      by_cases hk : k2 = k
      · subst hk
        simp [dictSet, dictGet, Ne.symm h]
      · simp [dictSet, hk, dictGet, ih]

/-- C8: while editing a field, Enter commits exactly the input buffer
into that field and returns to Navigating; Escape returns to Navigating
with the whole environment (this field and every other) unchanged. -/
theorem edit_commit_cancel (st : UIState) (detected : String) (confirm_ch : Int)
    (key lbl : String)
    (hedit : st.edit_mode = true)
    (hkey : pyGet? fields_order st.field_index = some (key, lbl)) :
    (handle_input st 10 detected confirm_ch =
       .ok ({ st with
                env := dictSet st.env key st.input_buffer,
                edit_mode := false }, none)) ∧
    dictGet (dictSet st.env key st.input_buffer) key = st.input_buffer ∧
    (∀ k', k' ≠ key →
       dictGet (dictSet st.env key st.input_buffer) k' = dictGet st.env k') ∧
    (handle_input st 27 detected confirm_ch =
       .ok ({ st with edit_mode := false }, none)) := by
  refine ⟨?_, dictGet_dictSet_self _ _ _,
    fun k' h => dictGet_dictSet_ne _ _ _ _ h, ?_⟩
  · simp [handle_input, edit_key, hedit, hkey, KEY_F5, KEY_ENTER, KEY_UP,
      KEY_DOWN, KEY_LEFT, KEY_RIGHT, KEY_BACKSPACE]
  · simp [handle_input, edit_key, hedit, KEY_F5, KEY_ENTER, KEY_UP,
      KEY_DOWN, KEY_LEFT, KEY_RIGHT, KEY_BACKSPACE]

/-- The C8 witness state: editing the SERIAL_NUMBER field (index 6)
with buffer `NEW`. -/
def c8_state : UIState :=
  { base_state with edit_mode := true, field_index := 6, input_buffer := "NEW" }

/-- Witness for C8 at the concrete edit session on `SERIAL_NUMBER`. -/
theorem edit_commit_cancel_witness :
    (handle_input c8_state 10 "D" 0 =
       .ok ({ c8_state with
                env := dictSet c8_state.env "SERIAL_NUMBER" c8_state.input_buffer,
                edit_mode := false }, none)) ∧
    dictGet (dictSet c8_state.env "SERIAL_NUMBER" c8_state.input_buffer)
        "SERIAL_NUMBER" = c8_state.input_buffer ∧
    (∀ k', k' ≠ "SERIAL_NUMBER" →
       dictGet (dictSet c8_state.env "SERIAL_NUMBER" c8_state.input_buffer) k' =
         dictGet c8_state.env k') ∧
    (handle_input c8_state 27 "D" 0 =
       .ok ({ c8_state with edit_mode := false }, none)) :=
  edit_commit_cancel c8_state "D" 0 "SERIAL_NUMBER" "Product Serial Number"
    rfl rfl

lemma nav_step (st : UIState) (k : Int) (d : String) (c : Int)
    (hedit : st.edit_mode = false)
    (hk : k = KEY_UP ∨ k = 107 ∨ k = KEY_DOWN ∨ k = 106) :
    ∃ i : Int, handle_input st k d c = .ok ({ st with field_index := i }, none) ∧
      0 ≤ i ∧ i < (total_items : Int) := by
  have hne : (total_items : Int) ≠ 0 := by decide
  have hpos : (0 : Int) < (total_items : Int) := by decide
  rcases hk with rfl | rfl | rfl | rfl
  · exact ⟨(st.field_index - 1) % (total_items : Int),
      by simp [handle_input, hedit, KEY_UP, KEY_DOWN, KEY_LEFT, KEY_RIGHT,
        KEY_F5, KEY_ENTER, KEY_BACKSPACE],
      Int.emod_nonneg _ hne, Int.emod_lt_of_pos _ hpos⟩
  · exact ⟨(st.field_index - 1) % (total_items : Int),
      by simp [handle_input, hedit, KEY_UP, KEY_DOWN, KEY_LEFT, KEY_RIGHT,
        KEY_F5, KEY_ENTER, KEY_BACKSPACE],
      Int.emod_nonneg _ hne, Int.emod_lt_of_pos _ hpos⟩
  · exact ⟨(st.field_index + 1) % (total_items : Int),
      by simp [handle_input, hedit, KEY_UP, KEY_DOWN, KEY_LEFT, KEY_RIGHT,
        KEY_F5, KEY_ENTER, KEY_BACKSPACE],
      Int.emod_nonneg _ hne, Int.emod_lt_of_pos _ hpos⟩
  · exact ⟨(st.field_index + 1) % (total_items : Int),
      by simp [handle_input, hedit, KEY_UP, KEY_DOWN, KEY_LEFT, KEY_RIGHT,
        KEY_F5, KEY_ENTER, KEY_BACKSPACE],
      Int.emod_nonneg _ hne, Int.emod_lt_of_pos _ hpos⟩

lemma nav_apply_bounds (ks : List Int) (d : String) (c : Int) :
    ∀ st : UIState, st.edit_mode = false → 0 ≤ st.field_index →
      st.field_index < (total_items : Int) →
      (∀ k ∈ ks, k = KEY_UP ∨ k = 107 ∨ k = KEY_DOWN ∨ k = 106) →
      ∃ st', nav_apply st ks d c = .ok st' ∧
        0 ≤ st'.field_index ∧ st'.field_index < (total_items : Int) := by
  induction ks with
  | nil => exact fun st _ hlo hhi _ => ⟨st, rfl, hlo, hhi⟩
  | cons k rest ih =>
      intro st hedit hlo hhi hks
      have hk := hks k (List.mem_cons_self k rest)
      obtain ⟨i, hstep, h0, h1⟩ := nav_step st k d c hedit hk
      unfold nav_apply
      rw [hstep]
      exact ih { st with field_index := i } hedit h0 h1
        (fun k2 hm => hks k2 (List.mem_cons_of_mem _ hm))

/-- C9: under any sequence of up/down (or j/k) keys the selection index
stays inside `[0, total_items)`; up on the first item wraps to the last
(index `total_items - 1`) and down on the last wraps to the first. -/
theorem nav_index_invariant (st : UIState) (ks : List Int) (d : String) (c : Int)
    (hedit : st.edit_mode = false)
    (hlo : 0 ≤ st.field_index) (hhi : st.field_index < (total_items : Int))
    (hks : ∀ k ∈ ks, k = KEY_UP ∨ k = 107 ∨ k = KEY_DOWN ∨ k = 106) :
    (∃ st', nav_apply st ks d c = .ok st' ∧
       0 ≤ st'.field_index ∧ st'.field_index < (total_items : Int)) ∧
    (st.field_index = 0 → ∀ k, (k = KEY_UP ∨ k = 107) →
       handle_input st k d c =
         .ok ({ st with field_index := (total_items : Int) - 1 }, none)) ∧
    (st.field_index = (total_items : Int) - 1 → ∀ k, (k = KEY_DOWN ∨ k = 106) →
       handle_input st k d c = .ok ({ st with field_index := 0 }, none)) := by
  refine ⟨nav_apply_bounds ks d c st hedit hlo hhi hks, ?_, ?_⟩
  · intro hidx k hk
    rcases hk with rfl | rfl <;>
      simp [handle_input, hedit, hidx, KEY_UP, KEY_DOWN, KEY_LEFT, KEY_RIGHT,
        KEY_F5, KEY_ENTER, KEY_BACKSPACE, total_items, fields_order,
        toggle_order]
  · intro hidx k hk
    rcases hk with rfl | rfl <;>
      simp [handle_input, hedit, hidx, KEY_UP, KEY_DOWN, KEY_LEFT, KEY_RIGHT,
        KEY_F5, KEY_ENTER, KEY_BACKSPACE, total_items, fields_order,
        toggle_order]

/-- Witness for C9 with a concrete navigation sequence from the fresh
state (selection on the first item). -/
theorem nav_index_invariant_witness :
    (∃ st', nav_apply base_state [KEY_DOWN, 106, KEY_UP, 107] "" 0 = .ok st' ∧
       0 ≤ st'.field_index ∧ st'.field_index < (total_items : Int)) ∧
    (base_state.field_index = 0 → ∀ k, (k = KEY_UP ∨ k = 107) →
       handle_input base_state k "" 0 =
         .ok ({ base_state with field_index := (total_items : Int) - 1 }, none)) ∧
    (base_state.field_index = (total_items : Int) - 1 →
       ∀ k, (k = KEY_DOWN ∨ k = 106) →
       handle_input base_state k "" 0 =
         .ok ({ base_state with field_index := 0 }, none)) :=
  nav_index_invariant base_state [KEY_DOWN, 106, KEY_UP, 107] "" 0 rfl
    (by decide) (by decide) (by decide)

/-- The C10 counterexample state: edit mode open. -/
def c10_state : UIState := { base_state with edit_mode := true }

/-- C10 counterexample: in Editing mode the theme key `t` (code 116)
does not flip the theme — it is treated as a printable character and
appended to the input buffer, so the flip is not mode-independent. -/
theorem theme_toggle_editing_cex :
    handle_input c10_state 116 "" 0 =
      .ok ({ c10_state with input_buffer := "t" }, none) ∧
    ({ c10_state with input_buffer := "t" } : UIState).theme_dark = true ∧
    c10_state.theme_dark = true ∧
    c10_state.edit_mode = true := by
  refine ⟨?_, rfl, rfl, rfl⟩
  rfl

/-- C10 (amended): the theme key flips Dark/Light in Navigating mode —
also when a job is live — but not in Editing mode, where it is consumed
as buffer text; at the quit-confirmation prompt it only cancels the
quit, leaving the theme unchanged. -/
theorem theme_toggle_amended (st : UIState) (d : String) (c ch : Int)
    (hch : ch = 116 ∨ ch = 84) :
    (st.edit_mode = false →
       handle_input st ch d c =
         .ok ({ st with theme_dark := !st.theme_dark }, none)) ∧
    (st.edit_mode = true →
       ∃ st', handle_input st ch d c = .ok (st', none) ∧
         st'.theme_dark = st.theme_dark) ∧
    (st.edit_mode = false → procLive st = true →
       handle_input st 113 d 116 = .ok (st, none)) := by
  refine ⟨?_, ?_, ?_⟩
  · intro hedit
    rcases hch with rfl | rfl <;> simp [handle_input, hedit]
  · intro hedit
    rcases hch with rfl | rfl
    · exact ⟨{ st with input_buffer := st.input_buffer.push (Char.ofNat (116 : Int).toNat) },
        by simp [handle_input, edit_key, hedit, KEY_BACKSPACE], rfl⟩
    · exact ⟨{ st with input_buffer := st.input_buffer.push (Char.ofNat (84 : Int).toNat) },
        by simp [handle_input, edit_key, hedit, KEY_BACKSPACE], rfl⟩
  · intro hedit hlive
    simp [handle_input, quit_request, hedit, hlive]

/-- Witness for the amended C10 at the fresh state. -/
theorem theme_toggle_amended_witness :
    (base_state.edit_mode = false →
       handle_input base_state 116 "" 0 =
         .ok ({ base_state with theme_dark := !base_state.theme_dark }, none)) ∧
    (base_state.edit_mode = true →
       ∃ st', handle_input base_state 116 "" 0 = .ok (st', none) ∧
         st'.theme_dark = base_state.theme_dark) ∧
    (base_state.edit_mode = false → procLive base_state = true →
       handle_input base_state 113 "" 116 = .ok (base_state, none)) :=
  theme_toggle_amended base_state "" 0 116 (Or.inl rfl)

/-- The C6 failing state: navigation focus on the first flag item
(index 12 = `len(fields_order)`), serial number present. -/
def c6_state : UIState := { base_state with field_index := 12 }

/-- The C6 second failing state: focus on the Start action (index 22). -/
def c6_start_state : UIState := { base_state with field_index := 22 }

/-- C6 (code bug): `handle_input` is not total. Enter (code 10) on a
flag item evaluates `fields_order[12]` on the 12-element field list,
and Left on the Start action evaluates `toggle_order[10]` on the
10-element toggle list; both raise an uncaught IndexError that
propagates out of the UI loop. -/
theorem handle_input_uncaught_index_error :
    handle_input c6_state 10 "" 0 = .error "IndexError" ∧
    handle_input c6_start_state KEY_LEFT "" 0 = .error "IndexError" :=
  ⟨rfl, rfl⟩

/-- The C7 states: focus on the first flag item, on a field item, and
on the Start action. -/
def c7_flag_state : UIState := { base_state with field_index := 12 }

def c7_field_state : UIState := { base_state with field_index := 3 }

def c7_start_state : UIState := { base_state with field_index := 22 }

/-- C7 (code bug): in Navigating mode Left/Right on a flag item toggles
that flag (twice restores it), and on a field item it is a no-op; but
on the Start action — where the claim requires a no-op — the handler
raises an uncaught IndexError (`toggle_order[10]`). -/
theorem left_right_toggle_behavior :
    handle_input c7_flag_state KEY_LEFT "" 0 =
      .ok ({ c7_flag_state with
               flags := c7_flag_state.flags.set "ENABLE_RS232_TEST"
                 (!(c7_flag_state.flags.get "ENABLE_RS232_TEST")) }, none) ∧
    ((c7_flag_state.flags.toggle "ENABLE_RS232_TEST").toggle
        "ENABLE_RS232_TEST") = c7_flag_state.flags ∧
    handle_input c7_field_state KEY_RIGHT "" 0 = .ok (c7_field_state, none) ∧
    handle_input c7_start_state KEY_RIGHT "" 0 = .error "IndexError" :=
  ⟨rfl, rfl, rfl, rfl⟩

end NexTui
